import Mathlib

/-!
Target provisioning of phosphor-hwmon (`targets.hpp`)

A shallow embedding of the `Targets<T>` trait and of the function template
`addTarget<T>`, followed by the properties proved about them.

Effects of the C++ code are made explicit:

* the calls the function makes to its collaborators (`fs::exists`,
  `HwmonIO::read`, `report<ReadFailure>`, `log<level::INFO>`) are appended, in
  program order, to an event list carried by the `World`;
* `std::make_shared<T>(...)` appends the constructed object to the list of
  allocated objects of the `World`; the shared pointer is the index of the
  object in that list;
* an exception leaving `addTarget` is the `Except.error` case of the result.

Paths are texts without a NUL character, so `c_str()` leaves them as they are.
-/

set_option autoImplicit false

namespace hwmon

/-- Modelled from the spec: `InterfaceType` is declared outside `targets.hpp`;
the spec gives it as the closed enumeration {FAN_SPEED, FAN_PWM}. -/
inductive InterfaceType where
  | FAN_SPEED
  | FAN_PWM
  deriving DecidableEq, Repr

/-- The two classes `Targets` is specialised for: `hwmon::FanSpeed` and
`hwmon::FanPwm`.  They are the possible template arguments `T`. -/
inductive TargetType where
  | FanSpeed
  | FanPwm
  deriving DecidableEq, Repr

/-- `Targets<T>::type` (lines 25-35); the primary template (lines 15-22) does
not compile for any other `T`, so it has no run-time counterpart. -/
def Targets.type : TargetType → InterfaceType
  | .FanSpeed => InterfaceType.FAN_SPEED
  | .FanPwm => InterfaceType.FAN_PWM

namespace entry

/-- Modelled from the spec: `hwmon::entry::target` is declared outside
`targets.hpp`; the spec gives the suffix as the fixed "target" token. -/
def target : String := "target"

end entry

/-- The handle `sdbusplus::bus::bus*`: passed through, never interpreted. -/
structure Bus where
  handle : Nat
  deriving DecidableEq, Repr

/-- Modelled from the spec: the classes `FanSpeed` and `FanPwm` are declared
outside `targets.hpp`; an object is the record of what it was constructed
from: the variant, the device root path, the device path, the sensor instance
name, the connection, the registration path, the deferred-signal flag and the
initial value. -/
structure Target where
  variant : TargetType
  instancePath : String
  devPath : String
  id : String
  bus : Bus
  objPath : String
  defer : Bool
  target : Nat
  deriving DecidableEq, Repr

/-- A `std::shared_ptr<T>` that is not empty: the index of the object among the
allocated objects of the `World`. -/
abbrev Ptr := Nat

/-- The type `Object`, a `std::map` from `InterfaceType` to the interface
object: an association list searched from the front. -/
abbrev Object := List (InterfaceType × Ptr)

/-- The lookup `obj.find(k)`. -/
def Object.find : Object → InterfaceType → Option Ptr
  | [], _ => none
  | (k', v) :: rest, k => if k' = k then some v else Object.find rest k

/-- The statement `obj[k] = v`: the value of an existing entry is replaced, a
missing entry is created. -/
def Object.assign : Object → InterfaceType → Ptr → Object
  | [], k, v => [(k, v)]
  | (k', v') :: rest, k, v =>
    if k' = k then (k, v) :: rest else (k', v') :: Object.assign rest k v

/-- The keys of the map; a `std::map` holds each key once. -/
def Object.keys (obj : Object) : List InterfaceType := obj.map Prod.fst

/-- The tuple `ObjectInfo`: connection, registration path and interfaces. -/
structure ObjectInfo where
  bus : Bus
  objPath : String
  obj : Object
  deriving DecidableEq, Repr

/-- What a call may throw: a `std::system_error` (or an exception of a class
derived from it) with the value of its error code, or an exception of any
other class. -/
inductive Exn where
  | system_error (code : Int)
  | other (what : String)
  deriving DecidableEq, Repr

deriving instance DecidableEq for Except

/-- The accessor `sysfs::hwmonio::HwmonIO`: its `path()` and what
`read(type, id, sensor, retries, delay)` returns or throws. -/
structure HwmonIO where
  path : String
  read : String → String → String → Nat → Nat → Except Exn Nat

/-- The collaborators `addTarget` uses that are defined outside `targets.hpp`:
`sysfs::make_sysfs_path`, `fs::exists` (which answers or throws, a
`filesystem_error` being a `std::system_error`), and the constants
`sysfs::hwmonio::retries` and `sysfs::hwmonio::delay`. -/
structure Env where
  make_sysfs_path : String → String → String → String → String
  fs_exists : String → Except Exn Bool
  retries : Nat
  delay : Nat

/-- The observable calls `addTarget` makes. -/
inductive Event where
  | fs_exists (path : String)
  | read (type id sensor : String) (retries delay : Nat)
  | report (CALLOUT_ERRNO : Int) (CALLOUT_DEVICE_PATH : String)
  | log (msg : String) (FILE : String)
  deriving DecidableEq, Repr

/-- The events recorded so far and the objects allocated so far. -/
structure World where
  events : List Event
  objects : List Target
  deriving DecidableEq, Repr

/-- Records one call. -/
def World.emit (w : World) (e : Event) : World :=
  { w with events := w.events ++ [e] }

/-- The call `std::make_shared<T>(...)`: allocates the object and returns the
pointer to it. -/
def World.make_shared (w : World) (t : Target) : Ptr × World :=
  (w.objects.length, { w with objects := w.objects ++ [t] })

/-- What a call of `addTarget` leaves behind: the returned pointer (`none` is
the empty pointer) or the exception that left the function, `info` (passed by
reference) and the world. -/
structure Outcome where
  result : Except Exn (Option Ptr)
  info : ObjectInfo
  world : World

/-- The width of `uint32_t`. -/
def UINT32 : Nat := 4294967296

/-- The function template `addTarget<T>` (lines 51-146). -/
def addTarget (env : Env) (T : TargetType) (sensor : String × String)
    (ioAccess : HwmonIO) (devPath : String) (info : ObjectInfo) (w : World) : Outcome :=
  let deferSignals : Bool := true
  let bus := info.bus
  let obj := info.obj
  let objPath := info.objPath
  let type := Targets.type T
  let pwm : String := "pwm"
  let empty : String := ""
  let sysfsFullPath : String :=
    if InterfaceType.FAN_PWM = type then
      env.make_sysfs_path ioAccess.path pwm sensor.2 empty
    else
      env.make_sysfs_path ioAccess.path sensor.1 sensor.2 entry.target
  let w := w.emit (Event.fs_exists sysfsFullPath)
  -- fs::exists stands outside the try block: what it throws leaves addTarget
  match env.fs_exists sysfsFullPath with
  | .error e => { result := .error e, info := info, world := w }
  | .ok present =>
  if present then
    let targetSpeed : Nat := 0
    -- try
    let attempt : World × Except Exn Nat :=
      if InterfaceType.FAN_PWM = type then
        (w.emit (Event.read pwm sensor.2 empty env.retries env.delay),
          ioAccess.read pwm sensor.2 empty env.retries env.delay)
      else
        (w.emit (Event.read sensor.1 sensor.2 entry.target env.retries env.delay),
          ioAccess.read sensor.1 sensor.2 entry.target env.retries env.delay)
    let w := attempt.1
    -- the value read is stored in a uint32_t; catch (const std::system_error& e)
    let caught : Except Exn (Nat × World) :=
      match attempt.2 with
      | .ok v => .ok (v % UINT32, w)
      | .error (Exn.system_error code) =>
        let w := w.emit (Event.report code devPath)
        let w := w.emit (Event.log "Logging failing sysfs file" sysfsFullPath)
        .ok (targetSpeed, w)
      | .error e => .error e
    match caught with
    | .error e => { result := .error e, info := info, world := w }
    | .ok (targetSpeed, w) =>
      let made := w.make_shared
        { variant := T, instancePath := ioAccess.path, devPath := devPath,
          id := sensor.2, bus := bus, objPath := objPath, defer := deferSignals,
          target := targetSpeed }
      let target := made.1
      let w := made.2
      let type := Targets.type T
      let obj := Object.assign obj type target
      { result := .ok (some target), info := { info with obj := obj }, world := w }
  else
    { result := .ok none, info := info, world := w }

/-- The events a call added to the world `w` it started from, given the world
`w'` it ended in. -/
def emitted (w w' : World) : List Event := w'.events.drop w.events.length

/-- Whether an event is a `report<ReadFailure>`. -/
def Event.isReport : Event → Bool
  | .report _ _ => true
  | _ => false

/-- Whether an event is a `log<level::INFO>`. -/
def Event.isLog : Event → Bool
  | .log _ _ => true
  | _ => false

/-- Whether an event is a `HwmonIO::read`. -/
def Event.isRead : Event → Bool
  | .read _ _ _ _ _ => true
  | _ => false

/-- Modelled from the spec: `sysfs::make_sysfs_path` is defined outside
`targets.hpp`; a path builder that agrees with the paths of the spec's
scenarios ("pwm1", "fan2_target", "fan3_target" under the device root). -/
def make_sysfs_path (path type id entry : String) : String :=
  if entry = "" then path ++ "/" ++ type ++ id
  else path ++ "/" ++ type ++ id ++ "_" ++ entry


/-- The attribute `(category, instance, suffix)` of a target as the
specification words it: for FAN_PWM the fixed "pwm" category, the sensor's
instance and no suffix; for FAN_SPEED the sensor's own type, the sensor's
instance and the "target" suffix. -/
def targetAttr (T : TargetType) (sensor : String × String) : String × String × String :=
  match Targets.type T with
  | InterfaceType.FAN_PWM => ("pwm", sensor.2, "")
  | InterfaceType.FAN_SPEED => (sensor.1, sensor.2, entry.target)

/-- The sysfs path of the attribute `targetAttr` under the accessor's root. -/
def targetPath (env : Env) (T : TargetType) (sensor : String × String)
    ( ioAccess : HwmonIO) : String :=
  env.make_sysfs_path ioAccess.path (targetAttr T sensor).1 (targetAttr T sensor).2.1
    (targetAttr T sensor).2.2

/-- What reading the attribute `targetAttr` with the shared retry count and
delay returns or throws. -/
def targetRead (env : Env) (T : TargetType) (sensor : String × String)
    ( ioAccess : HwmonIO) : Except Exn Nat :=
  ioAccess.read (targetAttr T sensor).1 (targetAttr T sensor).2.1 (targetAttr T sensor).2.2
    env.retries env.delay

/-- The event of reading the attribute `targetAttr` with the shared retry
count and delay. -/
def targetReadEvent (env : Env) (T : TargetType) (sensor : String × String) : Event :=
  Event.read (targetAttr T sensor).1 (targetAttr T sensor).2.1 (targetAttr T sensor).2.2
    env.retries env.delay

/-- The object `addTarget<T>` is expected to construct around `value`. -/
def targetObject (T : TargetType) (sensor : String × String) ( ioAccess : HwmonIO)
    (devPath : String) (info : ObjectInfo) (value : Nat) : Target :=
  { variant := T, instancePath := ioAccess.path, devPath := devPath, id := sensor.2,
    bus := info.bus, objPath := info.objPath, defer := true, target := value }

/-- A device root used in the scenarios. -/
def hwmon0 : String := "/sys/class/hwmon/hwmon0"

/-- A device path used in the scenarios. -/
def pwmTacho : String := "/sys/devices/platform/ahb/1e786000.pwm-tacho-controller"

/-- An environment with the sample path builder in which exactly the sysfs
files listed in `present` exist. -/
def sampleEnv (present : List String) : Env :=
  { make_sysfs_path := make_sysfs_path, fs_exists := fun p => .ok (decide (p ∈ present)),
    retries := 10, delay := 100 }

/-- An accessor rooted at `hwmon0` whose every read has the outcome `r`. -/
def sampleAccessor (r : Except Exn Nat) : HwmonIO :=
  { path := hwmon0, read := fun _ _ _ _ _ => r }

/-- An environment in which only the attribute "pwm1" of `hwmon0` exists. -/
def envPwm1 : Env := sampleEnv [hwmon0 ++ "/pwm1"]

/-- An environment in which only the attribute "fan2_target" of `hwmon0`
exists. -/
def envFan2 : Env := sampleEnv [hwmon0 ++ "/fan2_target"]

/-- An accessor whose reads return `v`. -/
def reading (v : Nat) : HwmonIO := sampleAccessor (.ok v)

/-- An accessor whose reads fail with a `std::system_error` of code `code`. -/
def failing (code : Int) : HwmonIO := sampleAccessor (.error (Exn.system_error code))

/-- An accessor whose reads throw `std::bad_alloc`, which is not a
`std::system_error`. -/
def throwing : HwmonIO := sampleAccessor (.error (Exn.other "std::bad_alloc"))

/-- An object context with an empty set of interfaces. -/
def sampleInfo (objPath : String) : ObjectInfo :=
  { bus := { handle := 1 }, objPath := objPath, obj := [] }

/-- A world in which nothing has happened yet. -/
def World.initial : World := { events := [], objects := [] }

/-- A world in which one FanPwm object was allocated earlier. -/
def World.earlier : World :=
  { events := [],
    objects := [{ variant := TargetType.FanPwm, instancePath := hwmon0, devPath := pwmTacho,
                  id := "1", bus := { handle := 1 }, objPath := "/fan1", defer := true,
                  target := 64 }] }

/-- An object context whose interface map holds the earlier FanPwm object. -/
def earlierInfo : ObjectInfo :=
  { bus := { handle := 1 }, objPath := "/fan1", obj := [(InterfaceType.FAN_PWM, 0)] }

/-- The paths carried by the `ReadFailure` reports among the events. -/
def reportPaths : List Event → List String
  | [] => []
  | Event.report _ path :: rest => path :: reportPaths rest
  | _ :: rest => reportPaths rest

/-- The files named by the informational log entries among the events. -/
def logFiles : List Event → List String
  | [] => []
  | Event.log _ file :: rest => file :: logFiles rest
  | _ :: rest => logFiles rest

/-- Whether the text `path` contains the text `name`. -/
def references (path name : String) : Bool := decide (name.toList <:+: path.toList)

/-! ## The four ways through `addTarget` -/

theorem addTarget_absent (env : Env) (T : TargetType) (sensor : String × String)
    ( ioAccess : HwmonIO) (devPath : String) (info : ObjectInfo) (w : World)
    (hex : env.fs_exists (targetPath env T sensor ioAccess) = .ok false) :
    addTarget env T sensor ioAccess devPath info w =
      { result := .ok none, info := info,
        world := w.emit (Event.fs_exists (targetPath env T sensor ioAccess)) } := by
  cases T <;>
    simp_all [addTarget, targetPath, targetAttr, Targets.type]

theorem addTarget_exists_error (env : Env) (T : TargetType) (sensor : String × String)
    ( ioAccess : HwmonIO) (devPath : String) (info : ObjectInfo) (w : World) (e : Exn)
    (hex : env.fs_exists (targetPath env T sensor ioAccess) = .error e) :
    addTarget env T sensor ioAccess devPath info w =
      { result := .error e, info := info,
        world := w.emit (Event.fs_exists (targetPath env T sensor ioAccess)) } := by
  cases T <;>
    simp_all [addTarget, targetPath, targetAttr, Targets.type]

theorem addTarget_read_ok (env : Env) (T : TargetType) (sensor : String × String)
    ( ioAccess : HwmonIO) (devPath : String) (info : ObjectInfo) (w : World) (v : Nat)
    (hex : env.fs_exists (targetPath env T sensor ioAccess) = .ok true)
    (hrd : targetRead env T sensor ioAccess = .ok v) :
    addTarget env T sensor ioAccess devPath info w =
      { result := .ok (some w.objects.length),
        info := { info with obj := Object.assign info.obj (Targets.type T) w.objects.length },
        world :=
          { events := w.events ++ [Event.fs_exists (targetPath env T sensor ioAccess),
              targetReadEvent env T sensor],
            objects := w.objects ++ [targetObject T sensor ioAccess devPath info (v % UINT32)] } } := by
  cases T <;>
    simp_all [addTarget, targetPath, targetAttr, targetRead, targetReadEvent, targetObject,
      Targets.type, World.emit, World.make_shared]

theorem addTarget_read_system_error (env : Env) (T : TargetType) (sensor : String × String)
    ( ioAccess : HwmonIO) (devPath : String) (info : ObjectInfo) (w : World) (code : Int)
    (hex : env.fs_exists (targetPath env T sensor ioAccess) = .ok true)
    (hrd : targetRead env T sensor ioAccess = .error (Exn.system_error code)) :
    addTarget env T sensor ioAccess devPath info w =
      { result := .ok (some w.objects.length),
        info := { info with obj := Object.assign info.obj (Targets.type T) w.objects.length },
        world :=
          { events := w.events ++ [Event.fs_exists (targetPath env T sensor ioAccess),
              targetReadEvent env T sensor, Event.report code devPath,
              Event.log "Logging failing sysfs file" (targetPath env T sensor ioAccess)],
            objects := w.objects ++ [targetObject T sensor ioAccess devPath info 0] } } := by
  cases T <;>
    simp_all [addTarget, targetPath, targetAttr, targetRead, targetReadEvent, targetObject,
      Targets.type, World.emit, World.make_shared]

theorem addTarget_read_other (env : Env) (T : TargetType) (sensor : String × String)
    ( ioAccess : HwmonIO) (devPath : String) (info : ObjectInfo) (w : World) (what : String)
    (hex : env.fs_exists (targetPath env T sensor ioAccess) = .ok true)
    (hrd : targetRead env T sensor ioAccess = .error (Exn.other what)) :
    addTarget env T sensor ioAccess devPath info w =
      { result := .error (Exn.other what), info := info,
        world :=
          { events := w.events ++ [Event.fs_exists (targetPath env T sensor ioAccess),
              targetReadEvent env T sensor],
            objects := w.objects } } := by
  cases T <;>
    simp_all [addTarget, targetPath, targetAttr, targetRead, targetReadEvent,
      Targets.type, World.emit]

theorem emitted_append (w : World) (es : List Event) (os : List Target) :
    emitted w { events := w.events ++ es, objects := os } = es := by
  simp [emitted]

theorem emitted_emit (w : World) (e : Event) : emitted w (w.emit e) = [e] := by
  simp [emitted, World.emit]

/-! ## The interface map -/

theorem Object.find_assign (obj : Object) (k : InterfaceType) (v : Ptr) (k' : InterfaceType) :
    (Object.assign obj k v).find k' = if k' = k then some v else obj.find k' := by
  induction obj with
  | nil =>
    by_cases h : k' = k
    · simp [Object.assign, Object.find, h]
    · have h' : ¬ k = k' := fun e => h e.symm
      simp [Object.assign, Object.find, h, h']
  | cons p rest ih =>
    obtain ⟨a, b⟩ := p
    by_cases hak : a = k
    · by_cases h : k' = k
      · simp [Object.assign, Object.find, hak, h]
      · have h' : ¬ k = k' := fun e => h e.symm
        simp [Object.assign, Object.find, hak, h, h']
    · by_cases h : k' = k
      · subst h
        simp [Object.assign, Object.find, hak, ih]
      · simp [Object.assign, Object.find, hak, ih, h]

theorem Object.mem_keys_assign (obj : Object) (k : InterfaceType) (v : Ptr)
    (k' : InterfaceType) :
    k' ∈ (Object.assign obj k v).keys ↔ k' = k ∨ k' ∈ obj.keys := by
  induction obj with
  | nil => simp [Object.assign, Object.keys]
  | cons p rest ih =>
    obtain ⟨a, b⟩ := p
    by_cases hak : a = k
    · subst hak
      simp [Object.assign, Object.keys]
    · simp only [Object.keys] at ih
      simp only [Object.assign, hak, if_false, Object.keys, List.map_cons, List.mem_cons, ih]
      tauto

theorem Object.nodup_keys_assign (obj : Object) (k : InterfaceType) (v : Ptr)
    (h : obj.keys.Nodup) : (Object.assign obj k v).keys.Nodup := by
  induction obj with
  | nil => simp [Object.assign, Object.keys]
  | cons p rest ih =>
    obtain ⟨a, b⟩ := p
    have hcons : a ∉ Object.keys rest ∧ (Object.keys rest).Nodup := by
      simpa [Object.keys] using h
    by_cases hak : a = k
    · subst hak
      simpa [Object.assign, Object.keys] using hcons
    · have hmem := Object.mem_keys_assign rest k v a
      have hnd := ih hcons.2
      simp only [Object.keys] at hmem hnd hcons
      simp only [Object.assign, hak, if_false, Object.keys, List.map_cons, List.nodup_cons]
      refine ⟨?_, hnd⟩
      rw [hmem]
      rintro (h1 | h1)
      · exact hak h1
      · exact hcons.1 h1

/-! ## Properties of `addTarget` -/

/-- C1: for every sensor, accessor, device path, context and interface kind,
if the target attribute exists and the read fails with a `std::system_error`,
`addTarget` still returns a non-empty pointer, the object it points to has the
initial value 0, and the call emits exactly one `ReadFailure` report and
exactly one informational log entry. -/
theorem addTarget_created_on_read_failure (env : Env) (T : TargetType)
    (sensor : String × String) ( ioAccess : HwmonIO) (devPath : String) (info : ObjectInfo)
    (w : World) (code : Int)
    (hex : env.fs_exists (targetPath env T sensor ioAccess) = .ok true)
    (hrd : targetRead env T sensor ioAccess = .error (Exn.system_error code)) :
    ∃ (ptr : Ptr) (t : Target),
      (addTarget env T sensor ioAccess devPath info w).result = .ok (some ptr) ∧
      (addTarget env T sensor ioAccess devPath info w).world.objects[ptr]? = some t ∧
      t.variant = T ∧ t.target = 0 ∧
      (emitted w (addTarget env T sensor ioAccess devPath info w).world).countP Event.isReport = 1 ∧
      (emitted w (addTarget env T sensor ioAccess devPath info w).world).countP Event.isLog = 1 := by
  rw [addTarget_read_system_error env T sensor ioAccess devPath info w code hex hrd]
  refine ⟨w.objects.length, targetObject T sensor ioAccess devPath info 0, rfl, ?_, rfl, rfl, ?_, ?_⟩
  · simp
  · rw [emitted_append]
    simp [targetReadEvent, Event.isReport, List.countP_cons]
  · rw [emitted_append]
    simp [targetReadEvent, Event.isLog, List.countP_cons]

/-- Witness of C1: the PWM attribute of sensor ("fan", "1") exists and its read
fails with error code 5. -/
theorem addTarget_created_on_read_failure_witness :
    envPwm1.fs_exists
        (targetPath envPwm1 TargetType.FanPwm ("fan", "1")
          (failing 5)) = .ok true ∧
      targetRead envPwm1 TargetType.FanPwm ("fan", "1")
        (failing 5) = .error (Exn.system_error 5) ∧
      ∃ (ptr : Ptr) (t : Target),
        (addTarget envPwm1 TargetType.FanPwm ("fan", "1")
          (failing 5) pwmTacho (sampleInfo "/fan1")
          World.initial).result = .ok (some ptr) ∧
        (addTarget envPwm1 TargetType.FanPwm ("fan", "1")
          (failing 5) pwmTacho (sampleInfo "/fan1")
          World.initial).world.objects[ptr]? = some t ∧
        t.variant = TargetType.FanPwm ∧ t.target = 0 ∧
        (emitted World.initial (addTarget envPwm1 TargetType.FanPwm
          ("fan", "1") (failing 5) pwmTacho (sampleInfo "/fan1")
          World.initial).world).countP Event.isReport = 1 ∧
        (emitted World.initial (addTarget envPwm1 TargetType.FanPwm
          ("fan", "1") (failing 5) pwmTacho (sampleInfo "/fan1")
          World.initial).world).countP Event.isLog = 1 :=
  ⟨by decide, rfl,
    addTarget_created_on_read_failure envPwm1 TargetType.FanPwm
      ("fan", "1") (failing 5) pwmTacho (sampleInfo "/fan1")
      World.initial 5 (by decide) rfl⟩

/-- C2: for every sensor, accessor, device path, context and interface kind,
if the target attribute exists and the read returns a `uint32_t` value `v`,
`addTarget` returns a non-empty pointer to an object of the requested variant
whose initial value is exactly `v`, and the call emits no report and no log
entry. -/
theorem addTarget_initial_value_is_read (env : Env) (T : TargetType)
    (sensor : String × String) ( ioAccess : HwmonIO) (devPath : String) (info : ObjectInfo)
    (w : World) (v : Nat)
    (hex : env.fs_exists (targetPath env T sensor ioAccess) = .ok true)
    (hrd : targetRead env T sensor ioAccess = .ok v)
    (hv : v < UINT32) :
    ∃ (ptr : Ptr) (t : Target),
      (addTarget env T sensor ioAccess devPath info w).result = .ok (some ptr) ∧
      (addTarget env T sensor ioAccess devPath info w).world.objects[ptr]? = some t ∧
      t.variant = T ∧ t.target = v ∧
      (emitted w (addTarget env T sensor ioAccess devPath info w).world).countP Event.isReport = 0 ∧
      (emitted w (addTarget env T sensor ioAccess devPath info w).world).countP Event.isLog = 0 := by
  rw [addTarget_read_ok env T sensor ioAccess devPath info w v hex hrd]
  refine ⟨w.objects.length, targetObject T sensor ioAccess devPath info (v % UINT32),
    rfl, ?_, rfl, ?_, ?_, ?_⟩
  · simp
  · exact Nat.mod_eq_of_lt hv
  · rw [emitted_append]
    simp [targetReadEvent, Event.isReport, List.countP_cons]
  · rw [emitted_append]
    simp [targetReadEvent, Event.isLog, List.countP_cons]

/-- Witness of C2, the scenario of the specification: sensor ("fan", "1"),
FAN_PWM requested, "pwm1" exists and its read returns 128; the result is a
FanPwm object with initial value 128 registered under FAN_PWM, and no report
and no log entry is emitted. -/
theorem addTarget_initial_value_is_read_witness :
    (envPwm1.fs_exists
        (targetPath envPwm1 TargetType.FanPwm ("fan", "1")
          (reading 128)) = .ok true ∧
      targetRead envPwm1 TargetType.FanPwm ("fan", "1")
        (reading 128) = .ok 128 ∧ 128 < UINT32) ∧
      (∃ (ptr : Ptr) (t : Target),
        (addTarget envPwm1 TargetType.FanPwm ("fan", "1")
          (reading 128) pwmTacho (sampleInfo "/fan1") World.initial).result
            = .ok (some ptr) ∧
        (addTarget envPwm1 TargetType.FanPwm ("fan", "1")
          (reading 128) pwmTacho (sampleInfo "/fan1") World.initial).world.objects[ptr]?
            = some t ∧
        t.variant = TargetType.FanPwm ∧ t.target = 128 ∧
        (emitted World.initial (addTarget envPwm1 TargetType.FanPwm
          ("fan", "1") (reading 128) pwmTacho (sampleInfo "/fan1")
          World.initial).world).countP Event.isReport = 0 ∧
        (emitted World.initial (addTarget envPwm1 TargetType.FanPwm
          ("fan", "1") (reading 128) pwmTacho (sampleInfo "/fan1")
          World.initial).world).countP Event.isLog = 0) ∧
      (addTarget envPwm1 TargetType.FanPwm ("fan", "1")
          (reading 128) pwmTacho (sampleInfo "/fan1") World.initial).world.events
        = [Event.fs_exists "/sys/class/hwmon/hwmon0/pwm1", Event.read "pwm" "1" "" 10 100] ∧
      (addTarget envPwm1 TargetType.FanPwm ("fan", "1")
          (reading 128) pwmTacho (sampleInfo "/fan1") World.initial).info.obj
        = [(InterfaceType.FAN_PWM, 0)] :=
  ⟨⟨by decide, rfl, by decide⟩,
    addTarget_initial_value_is_read envPwm1 TargetType.FanPwm
      ("fan", "1") (reading 128) pwmTacho (sampleInfo "/fan1") World.initial 128
      (by decide) rfl (by decide),
    by decide, by decide⟩

/-- C3: for every sensor, accessor, device path, context and interface kind,
if the computed target attribute path does not exist, `addTarget` returns the
empty pointer, leaves the context (and so its interface map) exactly as it
was, constructs no object, and the only call it makes is the existence check:
no read, no report, no log entry. -/
theorem addTarget_absent_is_silent (env : Env) (T : TargetType)
    (sensor : String × String) ( ioAccess : HwmonIO) (devPath : String) (info : ObjectInfo)
    (w : World)
    (hex : env.fs_exists (targetPath env T sensor ioAccess) = .ok false) :
    (addTarget env T sensor ioAccess devPath info w).result = .ok none ∧
      (addTarget env T sensor ioAccess devPath info w).info = info ∧
      (addTarget env T sensor ioAccess devPath info w).world.objects = w.objects ∧
      emitted w (addTarget env T sensor ioAccess devPath info w).world
        = [Event.fs_exists (targetPath env T sensor ioAccess)] ∧
      (emitted w (addTarget env T sensor ioAccess devPath info w).world).countP Event.isRead = 0 ∧
      (emitted w (addTarget env T sensor ioAccess devPath info w).world).countP Event.isReport = 0 ∧
      (emitted w (addTarget env T sensor ioAccess devPath info w).world).countP Event.isLog = 0 := by
  rw [addTarget_absent env T sensor ioAccess devPath info w hex]
  simp only [emitted_emit]
  simp [World.emit, Event.isRead, Event.isReport, Event.isLog]

/-- Witness of C3, the scenario of the specification: sensor ("fan", "3"),
FAN_SPEED requested, "fan3_target" absent (only "fan2_target" exists), and an
interface map that already holds an entry. -/
theorem addTarget_absent_is_silent_witness :
    envFan2.fs_exists
        (targetPath envFan2 TargetType.FanSpeed ("fan", "3")
          (reading 7)) = .ok false ∧
      targetPath envFan2 TargetType.FanSpeed ("fan", "3")
          (reading 7) = "/sys/class/hwmon/hwmon0/fan3_target" ∧
      ((addTarget envFan2 TargetType.FanSpeed ("fan", "3")
          (reading 7) pwmTacho ⟨⟨1⟩, "/fan3", [(InterfaceType.FAN_PWM, 0)]⟩
          World.initial).result = .ok none ∧
        (addTarget envFan2 TargetType.FanSpeed ("fan", "3")
          (reading 7) pwmTacho ⟨⟨1⟩, "/fan3", [(InterfaceType.FAN_PWM, 0)]⟩
          World.initial).info = ⟨⟨1⟩, "/fan3", [(InterfaceType.FAN_PWM, 0)]⟩ ∧
        (addTarget envFan2 TargetType.FanSpeed ("fan", "3")
          (reading 7) pwmTacho ⟨⟨1⟩, "/fan3", [(InterfaceType.FAN_PWM, 0)]⟩
          World.initial).world.objects = World.initial.objects ∧
        emitted World.initial (addTarget envFan2
          TargetType.FanSpeed ("fan", "3") (reading 7) pwmTacho
          ⟨⟨1⟩, "/fan3", [(InterfaceType.FAN_PWM, 0)]⟩ World.initial).world
          = [Event.fs_exists (targetPath envFan2
              TargetType.FanSpeed ("fan", "3") (reading 7))] ∧
        (emitted World.initial (addTarget envFan2
          TargetType.FanSpeed ("fan", "3") (reading 7) pwmTacho
          ⟨⟨1⟩, "/fan3", [(InterfaceType.FAN_PWM, 0)]⟩ World.initial).world).countP
            Event.isRead = 0 ∧
        (emitted World.initial (addTarget envFan2
          TargetType.FanSpeed ("fan", "3") (reading 7) pwmTacho
          ⟨⟨1⟩, "/fan3", [(InterfaceType.FAN_PWM, 0)]⟩ World.initial).world).countP
            Event.isReport = 0 ∧
        (emitted World.initial (addTarget envFan2
          TargetType.FanSpeed ("fan", "3") (reading 7) pwmTacho
          ⟨⟨1⟩, "/fan3", [(InterfaceType.FAN_PWM, 0)]⟩ World.initial).world).countP
            Event.isLog = 0) :=
  ⟨by decide, by decide,
    addTarget_absent_is_silent envFan2 TargetType.FanSpeed
      ("fan", "3") (reading 7) pwmTacho ⟨⟨1⟩, "/fan3", [(InterfaceType.FAN_PWM, 0)]⟩
      World.initial (by decide)⟩

/-- C4, as stated, fails: sensor ("fan", "1"), FAN_PWM requested, "pwm1"
exists and the read throws an exception that is not a `std::system_error`;
the exception leaves `addTarget`, which returns neither a populated nor an
empty result, constructs no object and leaves the interface map as it was. -/
theorem addTarget_propagates_other_error :
    envPwm1.fs_exists
        (targetPath envPwm1 TargetType.FanPwm ("fan", "1")
          throwing) = .ok true ∧
      (addTarget envPwm1 TargetType.FanPwm ("fan", "1")
          throwing pwmTacho (sampleInfo "/fan1")
          World.initial).result = .error (Exn.other "std::bad_alloc") ∧
      (¬ ∃ r, (addTarget envPwm1 TargetType.FanPwm ("fan", "1")
          throwing pwmTacho (sampleInfo "/fan1")
          World.initial).result = .ok r) ∧
      (addTarget envPwm1 TargetType.FanPwm ("fan", "1")
          throwing pwmTacho (sampleInfo "/fan1")
          World.initial).world.objects = [] ∧
      (addTarget envPwm1 TargetType.FanPwm ("fan", "1")
          throwing pwmTacho (sampleInfo "/fan1")
          World.initial).info.obj = [] := by
  refine ⟨by decide, rfl, ?_, rfl, rfl⟩
  rintro ⟨r, hr⟩
  have h : (addTarget envPwm1 TargetType.FanPwm ("fan", "1")
      throwing pwmTacho (sampleInfo "/fan1")
      World.initial).result = .error (Exn.other "std::bad_alloc") := rfl
  rw [h] at hr
  cases hr

/-- C4, amended: a `std::system_error` raised by the accessor's read is always
caught. An exception leaves `addTarget` in two cases only: the existence
check itself throws (it stands outside the try block), or the attribute exists
and the read throws an exception that is not a `std::system_error`; the
exception that leaves is the one thrown. In every other call `addTarget`
completes normally with a populated or an empty result. Whenever an exception
leaves, the context (and so its interface map) is exactly as it was and no
object has been constructed; once existence has been confirmed the exception
that leaves is never a `std::system_error`. -/
theorem addTarget_error_propagation (env : Env) (T : TargetType)
    (sensor : String × String) ( ioAccess : HwmonIO) (devPath : String) (info : ObjectInfo)
    (w : World) :
    (∀ e, (addTarget env T sensor ioAccess devPath info w).result = .error e ↔
        (env.fs_exists (targetPath env T sensor ioAccess) = .error e ∨
          (env.fs_exists (targetPath env T sensor ioAccess) = .ok true ∧
            targetRead env T sensor ioAccess = .error e ∧ ∃ what, e = Exn.other what))) ∧
      ((∃ r, (addTarget env T sensor ioAccess devPath info w).result = .ok r) ↔
        ¬ ((∃ e, env.fs_exists (targetPath env T sensor ioAccess) = .error e) ∨
          (env.fs_exists (targetPath env T sensor ioAccess) = .ok true ∧
            ∃ what, targetRead env T sensor ioAccess = .error (Exn.other what)))) ∧
      (∀ e, (addTarget env T sensor ioAccess devPath info w).result = .error e →
        (addTarget env T sensor ioAccess devPath info w).info = info ∧
        (addTarget env T sensor ioAccess devPath info w).world.objects = w.objects) ∧
      (∀ code, (addTarget env T sensor ioAccess devPath info w).result
          = .error (Exn.system_error code) →
        env.fs_exists (targetPath env T sensor ioAccess) = .error (Exn.system_error code)) ∧
      (∀ code, targetRead env T sensor ioAccess = .error (Exn.system_error code) →
        env.fs_exists (targetPath env T sensor ioAccess) = .ok true →
        ∃ ptr, (addTarget env T sensor ioAccess devPath info w).result = .ok (some ptr)) := by
  cases hex : env.fs_exists (targetPath env T sensor ioAccess) with
  | error x =>
    rw [addTarget_exists_error env T sensor ioAccess devPath info w x hex]
    refine ⟨?_, ?_, ?_, ?_, ?_⟩
    · intro e
      constructor
      · intro h
        cases h
        exact Or.inl rfl
      · rintro (h | h)
        · cases h
          rfl
        · cases h.1
    · simp
    · intro e _
      exact ⟨rfl, rfl⟩
    · intro code h
      cases h
      rfl
    · intro code _ h
      cases h
  | ok present =>
    cases present with
    | false =>
      rw [addTarget_absent env T sensor ioAccess devPath info w hex]
      simp
    | true =>
      cases hrd : targetRead env T sensor ioAccess with
      | ok v =>
        rw [addTarget_read_ok env T sensor ioAccess devPath info w v hex hrd]
        simp
      | error e =>
        cases e with
        | system_error code =>
          rw [addTarget_read_system_error env T sensor ioAccess devPath info w code hex hrd]
          simp
        | other what =>
          rw [addTarget_read_other env T sensor ioAccess devPath info w what hex hrd]
          simp

/-- C5, as stated, fails: sensor ("fan", "2"), FAN_SPEED requested,
"fan2_target" exists and the read throws an exception that is not a
`std::system_error`, in a context whose interface map holds a FanPwm object;
the exception leaves `addTarget`, no pointer is returned, and the interface
map is what it was: it holds no entry under FAN_SPEED. -/
theorem addTarget_registers_nothing_on_other_error :
    envFan2.fs_exists (targetPath envFan2 TargetType.FanSpeed ("fan", "2") throwing)
        = .ok true ∧
      (addTarget envFan2 TargetType.FanSpeed ("fan", "2") throwing pwmTacho earlierInfo
        World.earlier).result = .error (Exn.other "std::bad_alloc") ∧
      (addTarget envFan2 TargetType.FanSpeed ("fan", "2") throwing pwmTacho earlierInfo
        World.earlier).info.obj = [(InterfaceType.FAN_PWM, 0)] ∧
      (addTarget envFan2 TargetType.FanSpeed ("fan", "2") throwing pwmTacho earlierInfo
        World.earlier).info.obj.find (Targets.type TargetType.FanSpeed) = none ∧
      ¬ ∃ ptr : Ptr,
        (addTarget envFan2 TargetType.FanSpeed ("fan", "2") throwing pwmTacho earlierInfo
          World.earlier).result = .ok (some ptr) ∧
        (addTarget envFan2 TargetType.FanSpeed ("fan", "2") throwing pwmTacho earlierInfo
          World.earlier).info.obj.find (Targets.type TargetType.FanSpeed) = some ptr := by
  refine ⟨by decide, by decide, by decide, by decide, ?_⟩
  rintro ⟨ptr, -, h⟩
  have hnone : (addTarget envFan2 TargetType.FanSpeed ("fan", "2") throwing pwmTacho earlierInfo
      World.earlier).info.obj.find (Targets.type TargetType.FanSpeed) = none := by decide
  rw [hnone] at h
  cases h

/-- C5, amended: for every call of `addTarget` that finds the target attribute
and returns to its caller (the read returned a value or threw a
`std::system_error`), the returned pointer is not empty and the interface map
after the call is the map before the call updated at the key `Targets<T>::type`
alone: that key holds the returned pointer, whatever it held before, every
other key holds what it held before, and a map that held each key at most once
still does (and holds the key `Targets<T>::type` exactly once). -/
theorem addTarget_registers_target (env : Env) (T : TargetType)
    (sensor : String × String) ( ioAccess : HwmonIO) (devPath : String) (info : ObjectInfo)
    (w : World) (r : Option Ptr)
    (hex : env.fs_exists (targetPath env T sensor ioAccess) = .ok true)
    (hret : (addTarget env T sensor ioAccess devPath info w).result = .ok r)
    (hkeys : info.obj.keys.Nodup) :
    ∃ ptr : Ptr, r = some ptr ∧
      (addTarget env T sensor ioAccess devPath info w).info.obj.find (Targets.type T)
        = some ptr ∧
      (∀ k, k ≠ Targets.type T →
        (addTarget env T sensor ioAccess devPath info w).info.obj.find k = info.obj.find k) ∧
      (∀ k, k ∈ (addTarget env T sensor ioAccess devPath info w).info.obj.keys ↔
        k = Targets.type T ∨ k ∈ info.obj.keys) ∧
      (addTarget env T sensor ioAccess devPath info w).info.obj.keys.Nodup ∧
      (addTarget env T sensor ioAccess devPath info w).info.obj.keys.count (Targets.type T) = 1 ∧
      (addTarget env T sensor ioAccess devPath info w).info.bus = info.bus ∧
      (addTarget env T sensor ioAccess devPath info w).info.objPath = info.objPath := by
  have key : ∀ (ptr : Ptr) (out : Outcome), out.result = .ok (some ptr) →
      out.info = { info with obj := Object.assign info.obj (Targets.type T) ptr } →
      addTarget env T sensor ioAccess devPath info w = out →
      ∃ ptr : Ptr, r = some ptr ∧
        (addTarget env T sensor ioAccess devPath info w).info.obj.find (Targets.type T)
          = some ptr ∧
        (∀ k, k ≠ Targets.type T →
          (addTarget env T sensor ioAccess devPath info w).info.obj.find k = info.obj.find k) ∧
        (∀ k, k ∈ (addTarget env T sensor ioAccess devPath info w).info.obj.keys ↔
          k = Targets.type T ∨ k ∈ info.obj.keys) ∧
        (addTarget env T sensor ioAccess devPath info w).info.obj.keys.Nodup ∧
        (addTarget env T sensor ioAccess devPath info w).info.obj.keys.count (Targets.type T)
          = 1 ∧
        (addTarget env T sensor ioAccess devPath info w).info.bus = info.bus ∧
        (addTarget env T sensor ioAccess devPath info w).info.objPath = info.objPath := by
    intro ptr out hres hinfo hout
    rw [hout] at hret ⊢
    rw [hres] at hret
    have hr : r = some ptr := by cases hret; rfl
    have hnd := Object.nodup_keys_assign info.obj (Targets.type T) ptr hkeys
    refine ⟨ptr, hr, ?_, ?_, ?_, ?_, ?_, ?_, ?_⟩
    · rw [hinfo]; simp [Object.find_assign]
    · intro k hk
      rw [hinfo]; simp [Object.find_assign, hk]
    · intro k
      rw [hinfo]; exact Object.mem_keys_assign info.obj (Targets.type T) ptr k
    · rw [hinfo]; exact hnd
    · rw [hinfo]
      exact List.count_eq_one_of_mem hnd
        ((Object.mem_keys_assign info.obj (Targets.type T) ptr _).2 (Or.inl rfl))
    · rw [hinfo]
    · rw [hinfo]
  cases hrd : targetRead env T sensor ioAccess with
  | ok v =>
    exact key w.objects.length _ rfl rfl
      (addTarget_read_ok env T sensor ioAccess devPath info w v hex hrd)
  | error e =>
    cases e with
    | system_error code =>
      exact key w.objects.length _ rfl rfl
        (addTarget_read_system_error env T sensor ioAccess devPath info w code hex hrd)
    | other what =>
      rw [addTarget_read_other env T sensor ioAccess devPath info w what hex hrd] at hret
      cases hret

/-- Witness of C5: sensor ("fan", "1"), FAN_PWM requested, "pwm1" exists and
reads 128, and the interface map already holds a FanPwm object under FAN_PWM;
the new object replaces it. -/
theorem addTarget_registers_target_witness :
    (envPwm1.fs_exists
        (targetPath envPwm1 TargetType.FanPwm ("fan", "1")
          (reading 128)) = .ok true ∧
      (addTarget envPwm1 TargetType.FanPwm ("fan", "1")
        (reading 128) pwmTacho earlierInfo World.earlier).result = .ok (some 1) ∧
      earlierInfo.obj.keys.Nodup) ∧
      (addTarget envPwm1 TargetType.FanPwm ("fan", "1")
        (reading 128) pwmTacho earlierInfo World.earlier).info.obj
          = [(InterfaceType.FAN_PWM, 1)] ∧
      ∃ ptr : Ptr, some 1 = some ptr ∧
        (addTarget envPwm1 TargetType.FanPwm ("fan", "1")
          (reading 128) pwmTacho earlierInfo World.earlier).info.obj.find
            (Targets.type TargetType.FanPwm) = some ptr ∧
        (∀ k, k ≠ Targets.type TargetType.FanPwm →
          (addTarget envPwm1 TargetType.FanPwm ("fan", "1")
            (reading 128) pwmTacho earlierInfo World.earlier).info.obj.find k
              = earlierInfo.obj.find k) ∧
        (∀ k, k ∈ (addTarget envPwm1 TargetType.FanPwm ("fan", "1")
            (reading 128) pwmTacho earlierInfo World.earlier).info.obj.keys ↔
          k = Targets.type TargetType.FanPwm ∨ k ∈ earlierInfo.obj.keys) ∧
        (addTarget envPwm1 TargetType.FanPwm ("fan", "1")
          (reading 128) pwmTacho earlierInfo World.earlier).info.obj.keys.Nodup ∧
        (addTarget envPwm1 TargetType.FanPwm ("fan", "1")
          (reading 128) pwmTacho earlierInfo World.earlier).info.obj.keys.count
            (Targets.type TargetType.FanPwm) = 1 ∧
        (addTarget envPwm1 TargetType.FanPwm ("fan", "1")
          (reading 128) pwmTacho earlierInfo World.earlier).info.bus = earlierInfo.bus ∧
        (addTarget envPwm1 TargetType.FanPwm ("fan", "1")
          (reading 128) pwmTacho earlierInfo World.earlier).info.objPath
            = earlierInfo.objPath :=
  ⟨⟨by decide, rfl, by decide⟩, by decide,
    addTarget_registers_target envPwm1 TargetType.FanPwm ("fan", "1")
      (reading 128) pwmTacho earlierInfo World.earlier (some 1) (by decide) rfl
      (by decide)⟩

/-- C6: for every call of `addTarget` in which the attribute exists and the
read fails with a `std::system_error` of code `code`, the calls made are, in
order, the existence check of a path `p`, the read, one `ReadFailure` report
with CALLOUT_ERRNO = `code` and CALLOUT_DEVICE_PATH = the caller's `devPath`,
and one informational log entry whose FILE is the same path `p` that was
passed to the existence check. -/
theorem addTarget_read_failure_metadata (env : Env) (T : TargetType)
    (sensor : String × String) ( ioAccess : HwmonIO) (devPath : String) (info : ObjectInfo)
    (w : World) (code : Int)
    (hex : env.fs_exists (targetPath env T sensor ioAccess) = .ok true)
    (hrd : targetRead env T sensor ioAccess = .error (Exn.system_error code)) :
    ∃ (p msg : String) (rd : Event), rd.isRead = true ∧
      emitted w (addTarget env T sensor ioAccess devPath info w).world
        = [Event.fs_exists p, rd, Event.report code devPath, Event.log msg p] := by
  rw [addTarget_read_system_error env T sensor ioAccess devPath info w code hex hrd,
    emitted_append]
  exact ⟨targetPath env T sensor ioAccess, "Logging failing sysfs file",
    targetReadEvent env T sensor, rfl, rfl⟩

/-- Witness of C6: the PWM attribute of sensor ("fan", "1") exists and its read
fails with error code 110. -/
theorem addTarget_read_failure_metadata_witness :
    (envPwm1.fs_exists
        (targetPath envPwm1 TargetType.FanPwm ("fan", "1")
          (failing 110)) = .ok true ∧
      targetRead envPwm1 TargetType.FanPwm ("fan", "1")
        (failing 110) = .error (Exn.system_error 110)) ∧
      (∃ (p msg : String) (rd : Event), rd.isRead = true ∧
        emitted World.initial (addTarget envPwm1 TargetType.FanPwm
          ("fan", "1") (failing 110) pwmTacho (sampleInfo "/fan1")
          World.initial).world
          = [Event.fs_exists p, rd, Event.report 110 pwmTacho, Event.log msg p]) ∧
      emitted World.initial (addTarget envPwm1 TargetType.FanPwm
          ("fan", "1") (failing 110) pwmTacho (sampleInfo "/fan1")
          World.initial).world
        = [Event.fs_exists "/sys/class/hwmon/hwmon0/pwm1", Event.read "pwm" "1" "" 10 100,
            Event.report 110 "/sys/devices/platform/ahb/1e786000.pwm-tacho-controller",
            Event.log "Logging failing sysfs file" "/sys/class/hwmon/hwmon0/pwm1"] :=
  ⟨⟨by decide, rfl⟩,
    addTarget_read_failure_metadata envPwm1 TargetType.FanPwm
      ("fan", "1") (failing 110) pwmTacho (sampleInfo "/fan1")
      World.initial 110 (by decide) rfl,
    by decide⟩

/-- C7, as stated, fails: sensor ("fan", "2"), FAN_SPEED requested,
"fan2_target" exists and its read fails with error code 5; the one
`ReadFailure` report carries the caller's device path, which is not the sysfs
attribute path and does not contain "fan2_target". -/
theorem addTarget_report_path_is_device_path :
    envFan2.fs_exists
        (targetPath envFan2 TargetType.FanSpeed ("fan", "2")
          (failing 5)) = .ok true ∧
      targetPath envFan2 TargetType.FanSpeed ("fan", "2")
          (failing 5) = "/sys/class/hwmon/hwmon0/fan2_target" ∧
      emitted World.initial (addTarget envFan2
          TargetType.FanSpeed ("fan", "2") (failing 5) pwmTacho
          (sampleInfo "/fan2") World.initial).world
        = [Event.fs_exists "/sys/class/hwmon/hwmon0/fan2_target",
            Event.read "fan" "2" "target" 10 100,
            Event.report 5 "/sys/devices/platform/ahb/1e786000.pwm-tacho-controller",
            Event.log "Logging failing sysfs file" "/sys/class/hwmon/hwmon0/fan2_target"] ∧
      reportPaths (emitted World.initial (addTarget envFan2
          TargetType.FanSpeed ("fan", "2") (failing 5) pwmTacho
          (sampleInfo "/fan2") World.initial).world)
        = ["/sys/devices/platform/ahb/1e786000.pwm-tacho-controller"] ∧
      references "/sys/devices/platform/ahb/1e786000.pwm-tacho-controller" "fan2_target"
        = false ∧
      "/sys/devices/platform/ahb/1e786000.pwm-tacho-controller"
        ≠ "/sys/class/hwmon/hwmon0/fan2_target" := by
  refine ⟨by decide, by decide, by decide, by decide, by decide, by decide⟩

/-- C7, amended: when the target attribute exists and the read fails with a
`std::system_error`, the single `ReadFailure` report carries the error code
and the caller's device path, and the sysfs attribute path whose read failed
is the FILE of the single informational log entry; the result is an object of
the requested variant with initial value 0, and the interface map holds that
object under `Targets<T>::type`. -/
theorem addTarget_read_failure_paths (env : Env) (T : TargetType)
    (sensor : String × String) ( ioAccess : HwmonIO) (devPath : String) (info : ObjectInfo)
    (w : World) (code : Int)
    (hex : env.fs_exists (targetPath env T sensor ioAccess) = .ok true)
    (hrd : targetRead env T sensor ioAccess = .error (Exn.system_error code)) :
    (emitted w (addTarget env T sensor ioAccess devPath info w).world).filter Event.isReport
        = [Event.report code devPath] ∧
      reportPaths (emitted w (addTarget env T sensor ioAccess devPath info w).world)
        = [devPath] ∧
      logFiles (emitted w (addTarget env T sensor ioAccess devPath info w).world)
        = [targetPath env T sensor ioAccess] ∧
      ∃ (ptr : Ptr) (t : Target),
        (addTarget env T sensor ioAccess devPath info w).result = .ok (some ptr) ∧
        (addTarget env T sensor ioAccess devPath info w).world.objects[ptr]? = some t ∧
        t.variant = T ∧ t.target = 0 ∧
        (addTarget env T sensor ioAccess devPath info w).info.obj.find (Targets.type T)
          = some ptr := by
  rw [addTarget_read_system_error env T sensor ioAccess devPath info w code hex hrd,
    emitted_append]
  refine ⟨?_, ?_, ?_, w.objects.length, targetObject T sensor ioAccess devPath info 0,
    rfl, ?_, rfl, rfl, ?_⟩
  · simp [targetReadEvent, Event.isReport, List.filter_cons]
  · simp [targetReadEvent, reportPaths]
  · simp [targetReadEvent, logFiles]
  · simp
  · simp [Object.find_assign]

/-- Witness of C7 (amended), the scenario of the specification: sensor
("fan", "2"), FAN_SPEED requested, "fan2_target" exists and its read fails;
the log entry's FILE contains "fan2_target", the report carries the device
path, the result is a FanSpeed object with initial value 0 registered under
FAN_SPEED. -/
theorem addTarget_read_failure_paths_witness :
    (envFan2.fs_exists
        (targetPath envFan2 TargetType.FanSpeed ("fan", "2")
          (failing 5)) = .ok true ∧
      targetRead envFan2 TargetType.FanSpeed ("fan", "2")
        (failing 5) = .error (Exn.system_error 5)) ∧
      references (targetPath envFan2 TargetType.FanSpeed
        ("fan", "2") (failing 5)) "fan2_target" = true ∧
      ((emitted World.initial (addTarget envFan2
          TargetType.FanSpeed ("fan", "2") (failing 5) pwmTacho
          (sampleInfo "/fan2") World.initial).world).filter Event.isReport
          = [Event.report 5 pwmTacho] ∧
        reportPaths (emitted World.initial (addTarget envFan2
          TargetType.FanSpeed ("fan", "2") (failing 5) pwmTacho
          (sampleInfo "/fan2") World.initial).world) = [pwmTacho] ∧
        logFiles (emitted World.initial (addTarget envFan2
          TargetType.FanSpeed ("fan", "2") (failing 5) pwmTacho
          (sampleInfo "/fan2") World.initial).world)
          = [targetPath envFan2 TargetType.FanSpeed
              ("fan", "2") (failing 5)] ∧
        ∃ (ptr : Ptr) (t : Target),
          (addTarget envFan2 TargetType.FanSpeed ("fan", "2")
            (failing 5) pwmTacho (sampleInfo "/fan2")
            World.initial).result = .ok (some ptr) ∧
          (addTarget envFan2 TargetType.FanSpeed ("fan", "2")
            (failing 5) pwmTacho (sampleInfo "/fan2")
            World.initial).world.objects[ptr]? = some t ∧
          t.variant = TargetType.FanSpeed ∧ t.target = 0 ∧
          (addTarget envFan2 TargetType.FanSpeed ("fan", "2")
            (failing 5) pwmTacho (sampleInfo "/fan2")
            World.initial).info.obj.find (Targets.type TargetType.FanSpeed) = some ptr) :=
  ⟨⟨by decide, rfl⟩, by decide,
    addTarget_read_failure_paths envFan2 TargetType.FanSpeed
      ("fan", "2") (failing 5) pwmTacho (sampleInfo "/fan2")
      World.initial 5 (by decide) rfl⟩

/-- C8: `Targets<hwmon::FanSpeed>::type` is FAN_SPEED and
`Targets<hwmon::FanPwm>::type` is FAN_PWM; the two variants resolve to
distinct kinds and every interface kind is the image of exactly one variant. -/
theorem Targets_type_correct :
    Targets.type TargetType.FanSpeed = InterfaceType.FAN_SPEED ∧
      Targets.type TargetType.FanPwm = InterfaceType.FAN_PWM ∧
      Targets.type TargetType.FanSpeed ≠ Targets.type TargetType.FanPwm ∧
      (∀ T₁ T₂, Targets.type T₁ = Targets.type T₂ → T₁ = T₂) ∧
      (∀ k : InterfaceType, ∃! T : TargetType, Targets.type T = k) := by
  refine ⟨rfl, rfl, by decide, ?_, ?_⟩
  · intro T₁ T₂ h
    cases T₁ <;> cases T₂ <;> simp_all [Targets.type]
  intro k
  cases k
  · exact ⟨TargetType.FanSpeed, rfl, fun T h => by cases T <;> simp_all [Targets.type]⟩
  · exact ⟨TargetType.FanPwm, rfl, fun T h => by cases T <;> simp_all [Targets.type]⟩

/-- C9: for every sensor key and accessor, the path given to the existence
check is `make_sysfs_path(root, "pwm", instance, "")` for FAN_PWM and
`make_sysfs_path(root, type, instance, hwmon::entry::target)` for FAN_SPEED,
where `root` is the accessor's `path()`; every read the call issues is issued
with the very (category, instance, suffix) that built the checked path and
with the shared retry count and delay; and a read is issued exactly when the
checked path exists. -/
theorem addTarget_reads_checked_attribute (env : Env) (T : TargetType)
    (sensor : String × String) ( ioAccess : HwmonIO) (devPath : String) (info : ObjectInfo)
    (w : World) :
    ∃ c i s : String,
      ((T = TargetType.FanPwm ∧ c = "pwm" ∧ i = sensor.2 ∧ s = "") ∨
        (T = TargetType.FanSpeed ∧ c = sensor.1 ∧ i = sensor.2 ∧ s = entry.target)) ∧
      (emitted w (addTarget env T sensor ioAccess devPath info w).world).head?
        = some (Event.fs_exists (env.make_sysfs_path ioAccess.path c i s)) ∧
      (∀ p, Event.fs_exists p ∈ emitted w (addTarget env T sensor ioAccess devPath info w).world →
        p = env.make_sysfs_path ioAccess.path c i s) ∧
      (∀ c' i' s' r d,
        Event.read c' i' s' r d ∈ emitted w (addTarget env T sensor ioAccess devPath info w).world →
          c' = c ∧ i' = i ∧ s' = s ∧ r = env.retries ∧ d = env.delay) ∧
      ((emitted w (addTarget env T sensor ioAccess devPath info w).world).countP Event.isRead
        = match env.fs_exists (env.make_sysfs_path ioAccess.path c i s) with
          | .ok true => 1
          | _ => 0) := by
  have hattr : (T = TargetType.FanPwm ∧ (targetAttr T sensor).1 = "pwm" ∧
        (targetAttr T sensor).2.1 = sensor.2 ∧ (targetAttr T sensor).2.2 = "") ∨
      (T = TargetType.FanSpeed ∧ (targetAttr T sensor).1 = sensor.1 ∧
        (targetAttr T sensor).2.1 = sensor.2 ∧ (targetAttr T sensor).2.2 = entry.target) := by
    cases T <;> simp [targetAttr, Targets.type]
  refine ⟨(targetAttr T sensor).1, (targetAttr T sensor).2.1, (targetAttr T sensor).2.2,
    hattr, ?_⟩
  change _ ∧ _ ∧ _ ∧ (_ = match env.fs_exists (targetPath env T sensor ioAccess) with
    | .ok true => 1
    | _ => 0)
  cases hex : env.fs_exists (targetPath env T sensor ioAccess) with
  | error x =>
    rw [addTarget_exists_error env T sensor ioAccess devPath info w x hex, emitted_emit]
    simp [targetPath, Event.isRead]
  | ok present =>
    cases present with
    | false =>
      rw [addTarget_absent env T sensor ioAccess devPath info w hex, emitted_emit]
      simp [targetPath, Event.isRead]
    | true =>
      cases hrd : targetRead env T sensor ioAccess with
      | ok v =>
        rw [addTarget_read_ok env T sensor ioAccess devPath info w v hex hrd, emitted_append]
        simp [targetPath, targetReadEvent, Event.isRead, List.countP_cons]
      | error e =>
        cases e with
        | system_error code =>
          rw [addTarget_read_system_error env T sensor ioAccess devPath info w code hex hrd,
            emitted_append]
          simp [targetPath, targetReadEvent, Event.isRead, List.countP_cons]
        | other what =>
          rw [addTarget_read_other env T sensor ioAccess devPath info w what hex hrd,
            emitted_append]
          simp [targetPath, targetReadEvent, Event.isRead, List.countP_cons]

/-- C10, as stated, fails: sensor ("fan", "1"), FAN_PWM requested, "pwm1"
exists and the read throws an exception that is not a `std::system_error`, in
a world that holds one object; the exception leaves `addTarget` and no object
is constructed. -/
theorem addTarget_constructs_nothing_on_other_error :
    envPwm1.fs_exists (targetPath envPwm1 TargetType.FanPwm ("fan", "1") throwing)
        = .ok true ∧
      (addTarget envPwm1 TargetType.FanPwm ("fan", "1") throwing pwmTacho earlierInfo
        World.earlier).result = .error (Exn.other "std::bad_alloc") ∧
      (addTarget envPwm1 TargetType.FanPwm ("fan", "1") throwing pwmTacho earlierInfo
        World.earlier).world.objects = World.earlier.objects ∧
      (addTarget envPwm1 TargetType.FanPwm ("fan", "1") throwing pwmTacho earlierInfo
        World.earlier).world.objects.drop World.earlier.objects.length = [] ∧
      ¬ ∃ t : Target,
        (addTarget envPwm1 TargetType.FanPwm ("fan", "1") throwing pwmTacho earlierInfo
          World.earlier).world.objects = World.earlier.objects ++ [t] := by
  refine ⟨by decide, by decide, by decide, by decide, ?_⟩
  rintro ⟨t, h⟩
  have hlen := congrArg List.length h
  have hsame : (addTarget envPwm1 TargetType.FanPwm ("fan", "1") throwing pwmTacho earlierInfo
      World.earlier).world.objects = World.earlier.objects := by decide
  rw [hsame] at hlen
  simp at hlen

/-- C10, amended: for every call of `addTarget` that finds the target attribute
and returns to its caller (the read returned a value or threw a
`std::system_error`), exactly one object is constructed, from the accessor's
`path()`, the caller's `devPath`, the sensor's instance name `sensor.second`,
the context's connection, the context's registration path, the deferred-signal
flag `true`, and the value read (stored in a `uint32_t`) or 0 after a failed
read; the returned pointer is the pointer to that object, and the flag is
`true` whether or not the read succeeded. -/
theorem addTarget_constructs_once (env : Env) (T : TargetType)
    (sensor : String × String) ( ioAccess : HwmonIO) (devPath : String) (info : ObjectInfo)
    (w : World) (r : Option Ptr)
    (hex : env.fs_exists (targetPath env T sensor ioAccess) = .ok true)
    (hret : (addTarget env T sensor ioAccess devPath info w).result = .ok r) :
    ∃ (ptr : Ptr) (value : Nat),
      r = some ptr ∧
      (value = match targetRead env T sensor ioAccess with
        | .ok v => v % UINT32
        | .error _ => 0) ∧
      (addTarget env T sensor ioAccess devPath info w).world.objects
        = w.objects ++ [{ variant := T, instancePath := ioAccess.path, devPath := devPath,
                          id := sensor.2, bus := info.bus, objPath := info.objPath,
                          defer := true, target := value }] ∧
      (addTarget env T sensor ioAccess devPath info w).world.objects[ptr]?
        = some { variant := T, instancePath := ioAccess.path, devPath := devPath,
                 id := sensor.2, bus := info.bus, objPath := info.objPath,
                 defer := true, target := value } ∧
      (∀ t ∈ (addTarget env T sensor ioAccess devPath info w).world.objects.drop
          w.objects.length, t.defer = true) := by
  cases hrd : targetRead env T sensor ioAccess with
  | ok v =>
    rw [addTarget_read_ok env T sensor ioAccess devPath info w v hex hrd] at hret ⊢
    refine ⟨w.objects.length, v % UINT32, ?_, rfl, rfl, ?_, ?_⟩
    · cases hret; rfl
    · simp [targetObject]
    · simp [targetObject]
  | error e =>
    cases e with
    | system_error code =>
      rw [addTarget_read_system_error env T sensor ioAccess devPath info w code hex hrd]
        at hret ⊢
      refine ⟨w.objects.length, 0, ?_, rfl, rfl, ?_, ?_⟩
      · cases hret; rfl
      · simp [targetObject]
      · simp [targetObject]
    | other what =>
      rw [addTarget_read_other env T sensor ioAccess devPath info w what hex hrd] at hret
      cases hret

/-- Witness of C10: sensor ("fan", "2"), FAN_SPEED requested, "fan2_target"
exists and its read fails, in a world that already holds one object; one
FanSpeed object with initial value 0 and the deferred-signal flag set is
constructed after it. -/
theorem addTarget_constructs_once_witness :
    (envFan2.fs_exists
        (targetPath envFan2 TargetType.FanSpeed ("fan", "2")
          (failing 5)) = .ok true ∧
      (addTarget envFan2 TargetType.FanSpeed ("fan", "2")
        (failing 5) pwmTacho earlierInfo World.earlier).result
          = .ok (some 1)) ∧
      (addTarget envFan2 TargetType.FanSpeed ("fan", "2")
        (failing 5) pwmTacho earlierInfo World.earlier).world.objects
          = World.earlier.objects ++
            [{ variant := TargetType.FanSpeed, instancePath := "/sys/class/hwmon/hwmon0",
               devPath := "/sys/devices/platform/ahb/1e786000.pwm-tacho-controller",
               id := "2", bus := { handle := 1 }, objPath := "/fan1", defer := true,
               target := 0 }] ∧
      ∃ (ptr : Ptr) (value : Nat),
        some 1 = some ptr ∧
        (value = match targetRead envFan2 TargetType.FanSpeed
            ("fan", "2") (failing 5) with
          | .ok v => v % UINT32
          | .error _ => 0) ∧
        (addTarget envFan2 TargetType.FanSpeed ("fan", "2")
          (failing 5) pwmTacho earlierInfo
          World.earlier).world.objects
          = World.earlier.objects ++
            [{ variant := TargetType.FanSpeed,
               instancePath := (failing 5).path,
               devPath := pwmTacho, id := ("fan", "2").2, bus := earlierInfo.bus,
               objPath := earlierInfo.objPath, defer := true, target := value }] ∧
        (addTarget envFan2 TargetType.FanSpeed ("fan", "2")
          (failing 5) pwmTacho earlierInfo
          World.earlier).world.objects[ptr]?
          = some { variant := TargetType.FanSpeed,
                   instancePath := (failing 5).path,
                   devPath := pwmTacho, id := ("fan", "2").2, bus := earlierInfo.bus,
                   objPath := earlierInfo.objPath, defer := true, target := value } ∧
        (∀ t ∈ (addTarget envFan2 TargetType.FanSpeed
            ("fan", "2") (failing 5) pwmTacho earlierInfo
            World.earlier).world.objects.drop World.earlier.objects.length, t.defer = true) :=
  ⟨⟨by decide, rfl⟩, by decide,
    addTarget_constructs_once envFan2 TargetType.FanSpeed
      ("fan", "2") (failing 5) pwmTacho earlierInfo World.earlier
      (some 1) (by decide) rfl⟩

end hwmon
